import Mathlib

/-!
# Verification of the allorai-app multi-agent orchestration core

A shallow embedding, in Lean 4, of the parts of the `Team-Gumshoes/allorai-app`
TypeScript backend that its specification makes checkable claims about:

* the null-filling data generator (`src/utils/agents/generator.ts`),
* the intent classifier (`graph/nodes/supervisor/utils/classifyIntent.ts`),
* the orchestrator graph and its dispatch function (`src/graph/index.ts`),
* the tool-loop post-processing of the flight and arithmetic nodes
  (`src/graph/nodes/flight/flightNode.ts`, `src/graph/nodes/arithmetic/arithmeticNode.ts`),
* the Amadeus OAuth token cache (`src/utils/amadeus/tokenManager.ts`),
* the hotel node (`src/graph/nodes/hotel/hotelNode.ts`), and
* the Wikipedia-grounded tips pipeline (`src/graph/nodes/tips/tipsNode.ts`).

Every LLM invocation, HTTP fetch and id generation is an external effect; the
embedding passes their outcomes in explicitly as oracle ("environment")
records, so each TypeScript `async` function becomes a pure Lean function of
its inputs and its environment.  A rejected promise / thrown exception is an
`Except.error`; a JavaScript `null` field is the `JVal.vnull` sentinel; an
absent (`undefined`) field is an absent key of the association list.
-/

set_option autoImplicit false

namespace Allorai

/-! ## JSON values and objects

Generator templates and tool payloads are flat JSON objects: a list of
key/value pairs in insertion order (JavaScript objects preserve insertion
order and have no duplicate keys).  Values that the embedded code ever
inspects are `null`, booleans, numbers and strings; nested structures are
never traversed by the modelled code, so a flat value type suffices. -/

instance {ε α : Type} [DecidableEq ε] [DecidableEq α] :
    DecidableEq (Except ε α) := fun a b =>
  match a, b with
  | .error e, .error f =>
      if h : e = f then .isTrue (by rw [h])
      else .isFalse (fun hc => by cases hc; exact h rfl)
  | .ok x, .ok y =>
      if h : x = y then .isTrue (by rw [h])
      else .isFalse (fun hc => by cases hc; exact h rfl)
  | .error _, .ok _ => .isFalse (fun hc => by cases hc)
  | .ok _, .error _ => .isFalse (fun hc => by cases hc)

inductive JVal where
  | vnull
  | vbool (b : Bool)
  | vnum (n : Int)
  | vstr (s : String)
deriving DecidableEq, Repr

/-- A JavaScript object: keys with values, in insertion order. -/
abbrev JObj := List (String × JVal)

/-- Property read `o[k]`: the first binding of `k`, `none` for `undefined`. -/
def jLookup : JObj → String → Option JVal
  | [], _ => none
  | (k', v) :: rest, k => if k' = k then some v else jLookup rest k

/-- Property write `o[k] = v`: overwrite the first binding of `k`, else append
(JavaScript keeps the original insertion position of an overwritten key). -/
def setField : JObj → String → JVal → JObj
  | [], k, v => [(k, v)]
  | (k', v') :: rest, k, v =>
      if k' = k then (k, v) :: rest else (k', v') :: setField rest k v

/-- `Object.keys o`. -/
def keys (o : JObj) : List String := o.map Prod.fst

theorem jLookup_setField_same (o : JObj) (k : String) (v : JVal) :
    jLookup (setField o k v) k = some v := by
  induction o with
  | nil => simp [setField, jLookup]
  | cons kv rest ih =>
      by_cases h : kv.1 = k
      · simp [setField, h, jLookup]
      · simp [setField, h, jLookup, ih]

theorem jLookup_setField_other (o : JObj) (k k' : String) (v : JVal)
    (h : k' ≠ k) : jLookup (setField o k v) k' = jLookup o k' := by
  induction o with
  | nil => simp [setField, jLookup, Ne.symm h]
  | cons kv rest ih =>
      by_cases hk : kv.1 = k
      · simp [setField, hk, jLookup, Ne.symm h, h]
      · by_cases hk' : kv.1 = k'
        · simp [setField, hk, jLookup, hk', h]
        · simp [setField, hk, jLookup, hk', ih]

theorem jLookup_eq_none_of_not_mem_keys (o : JObj) (k : String)
    (h : k ∉ keys o) : jLookup o k = none := by
  induction o with
  | nil => rfl
  | cons kv rest ih =>
      simp only [keys, List.map_cons, List.mem_cons] at h
      push_neg at h
      simp [jLookup, Ne.symm h.1, ih (by simpa [keys] using h.2)]

/-! ## The data generator (`src/utils/agents/generator.ts`)

`generator` sends the null-bearing templates to the LLM and post-processes the
reply.  The reply is an oracle input, given after `JSON.parse`: either the
parse failed on both the raw text and the fence-stripped text (the generator
then throws), or it yielded a single object (the code wraps it in an array),
or it yielded an array of objects. -/

inductive GenReply where
  | unparseable
  | single (o : JObj)
  | many (os : List JObj)
deriving DecidableEq, Repr

/-- `Array.isArray(options.data) ? options.data : [options.data]`. -/
def normalizeData : JObj ⊕ List JObj → List JObj
  | .inl o => [o]
  | .inr l => l

/-- The null-valued field names of the first template
(`(dataArray[0] ?? {})`, entries filtered on `v === null`): listed in the
prompt only, never used by the post-processing. -/
def nullFields (dataArray : List JObj) : List String :=
  ((dataArray.headD []).filter (fun kv => kv.2 = JVal.vnull)).map Prod.fst

/-- The normalization `if (!Array.isArray(parsed)) parsed = [parsed]` of the
parsed model reply; `none` when `JSON.parse` threw on both attempts. -/
def replyItems : GenReply → Option (List JObj)
  | .unparseable => none
  | .single o => some [o]
  | .many os => some os

/-- The loop body of
`for (const key of Object.keys(original)) if (original[key] !== null && original[key] !== undefined) result[key] = original[key]`.
An `undefined` value is an absent key here, so only the `null` test remains. -/
def assignNonNull : JObj → JObj → JObj
  | res, [] => res
  | res, (k, v) :: rest =>
      assignNonNull (if v ≠ JVal.vnull then setField res k v else res) rest

/-- One element of the defensive `parsed.map((item, index) => ...)`:
start from `{...item}` and write back every non-null field of the original
template. -/
def mergeTemplate (original item : JObj) : JObj :=
  assignNonNull item original

/-- `dataArray[index] ?? dataArray[0]!`. -/
def originalAt (dataArray : List JObj) (i : Nat) : JObj :=
  ((dataArray.get? i).getD (dataArray.headD []))

/-- The defensive map over the parsed reply, index threaded through. -/
def fillAll (dataArray : List JObj) : Nat → List JObj → List JObj
  | _, [] => []
  | i, item :: rest =>
      mergeTemplate (originalAt dataArray i) item :: fillAll dataArray (i + 1) rest

/-- `generator<T>`: normalize the data to an array, parse the model reply
(throw when unparseable), normalize the reply to an array, and defensively
write every non-null original field back over the model's output.  When the
input array is empty but the reply is not, `dataArray[0]!` is `undefined` and
`Object.keys(undefined)` throws a `TypeError`, hence the extra error case. -/
def generator (data : JObj ⊕ List JObj) (reply : GenReply) :
    Except Unit (List JObj) :=
  match replyItems reply with
  | none => .error ()
  | some parsed =>
      if normalizeData data = [] ∧ parsed ≠ [] then .error ()
      else .ok (fillAll (normalizeData data) 0 parsed)

theorem assignNonNull_jLookup_of_not_mem (orig : JObj) (res : JObj)
    (k : String) (h : k ∉ keys orig) :
    jLookup (assignNonNull res orig) k = jLookup res k := by
  induction orig generalizing res with
  | nil => rfl
  | cons kv rest ih =>
      simp only [keys, List.map_cons, List.mem_cons] at h
      push_neg at h
      rw [assignNonNull, ih _ (by simpa [keys] using h.2)]
      by_cases hv : kv.2 ≠ JVal.vnull
      · simp [hv, jLookup_setField_other _ _ _ _ h.1]
      · simp [hv]

/-- The load-bearing generator invariant: with the object's keys distinct (as
in every JavaScript object), a non-null field of the original template
survives the merge unchanged. -/
theorem mergeTemplate_preserves (orig item : JObj) (k : String) (v : JVal)
    (hnd : (keys orig).Nodup) (hk : jLookup orig k = some v)
    (hv : v ≠ JVal.vnull) : jLookup (mergeTemplate orig item) k = some v := by
  unfold mergeTemplate
  induction orig generalizing item with
  | nil => simp [jLookup] at hk
  | cons kv rest ih =>
      simp only [keys, List.map_cons, List.nodup_cons] at hnd
      rw [jLookup] at hk
      by_cases hkk : kv.1 = k
      · rw [if_pos hkk] at hk
        cases hk
        rw [assignNonNull,
          assignNonNull_jLookup_of_not_mem rest _ k (hkk ▸ hnd.1)]
        simp [hv, jLookup_setField_same, hkk]
      · rw [if_neg hkk] at hk
        rw [assignNonNull]
        exact ih _ hnd.2 hk

theorem fillAll_length (dataArray : List JObj) (n : Nat) (items : List JObj) :
    (fillAll dataArray n items).length = items.length := by
  induction items generalizing n with
  | nil => rfl
  | cons it rest ih => simp [fillAll, ih]

theorem fillAll_getD (dataArray : List JObj) (n i : Nat) (items : List JObj)
    (hi : i < items.length) :
    (fillAll dataArray n items).getD i [] =
      mergeTemplate (originalAt dataArray (n + i)) (items.getD i []) := by
  induction items generalizing n i with
  | nil => simp at hi
  | cons it rest ih =>
      cases i with
      | zero => simp [fillAll]
      | succ j =>
          have hj : j < rest.length := by simpa using hi
          have harg : n + 1 + j = n + (j + 1) := by omega
          simp only [fillAll, List.getD_cons_succ]
          rw [ih (n + 1) j hj, harg]

theorem generator_length (data : JObj ⊕ List JObj) (reply : GenReply)
    (out : List JObj) (h : generator data reply = .ok out) :
    ∃ parsed, replyItems reply = some parsed ∧ out.length = parsed.length := by
  unfold generator at h
  cases hr : replyItems reply with
  | none => rw [hr] at h; exact absurd h (by simp)
  | some parsed =>
      rw [hr] at h
      refine ⟨parsed, rfl, ?_⟩
      by_cases hc : normalizeData data = [] ∧ parsed ≠ []
      · simp [hc] at h
      · simp only [if_neg hc, Except.ok.injEq] at h
        rw [← h]
        exact fillAll_length _ _ _

/-! ## Conversation messages and tool payloads

`BaseMessage` is a tagged union; the embedded post-processing only ever reads
a message's tag, an AI message's text, and — for tool messages — the outcome
of `JSON.parse` on the tool's string content.  A tool payload is therefore
stored already parsed: an array of objects, a single JSON value, an object,
or unparseable text (on which `extractLastToolJson` throws). -/

inductive ToolPayload where
  | arr (items : List JObj)
  | obj (o : JObj)
  | val (v : JVal)
  | bad
deriving DecidableEq, Repr

inductive Msg where
  | human (text : String)
  | ai (text : String)
  | tool (payload : ToolPayload)
deriving DecidableEq, Repr

/-- `m.type === "tool"`. -/
def Msg.isTool : Msg → Bool
  | .tool _ => true
  | _ => false

/-- `src/utils/agents/extractLastToolJson.ts`: scan the history backwards for
the most recent tool message and parse its content; throws when there is no
tool message or its content is not JSON. -/
def extractLastToolJson (messages : List Msg) : Except Unit ToolPayload :=
  match (messages.reverse.find? Msg.isTool) with
  | none => .error ()
  | some (.tool .bad) => .error ()
  | some (.tool p) => .ok p
  | some _ => .error ()

/-! ## Trip context and agent state (`types/trip.ts`, `graph/state.ts`) -/

structure Coords where
  latitude : ℚ
  longitude : ℚ
deriving DecidableEq, Repr

structure Trip where
  origin : Option String := none
  destination : Option String := none
  city : Option String := none
  departureFlight : Option String := none
  returnFlight : Option String := none
  departureDate : Option String := none
  returnDate : Option String := none
  budget : Option Int := none
  hotel : Option String := none
  interests : List String := []
  constraints : List String := []
  destinationCoords : Option Coords := none
  hotelCoords : Option Coords := none
deriving DecidableEq, Repr

/-- JavaScript truthiness of a nullable string: `null` and `""` are falsy
(`!trip.destination` and friends). -/
def jsFalsyStr : Option String → Bool
  | none => true
  | some s => s = ""

/-- The per-domain `data` payload (`types/api.ts`, `ResponseData`): a
discriminated union `{type, summary?, options?}`. -/
inductive RData where
  | arithmetic (value : ToolPayload)
  | flight (summary : String) (options : List JObj)
  | hotel (summary : String) (options : List JObj)
  | error (message : String)
deriving DecidableEq, Repr

/-- The part of `AgentState` a domain node reads, and the partial update it
returns: `messages` plus an optional `data`. -/
structure AgentState where
  messages : List Msg
  trip : Trip := {}
deriving DecidableEq, Repr

structure Update where
  messages : List Msg
  data : Option RData := none
deriving DecidableEq, Repr

/-! ## The intent classifier
(`graph/nodes/supervisor/utils/classifyIntent.ts`)

The LLM call is not inside the `try`, so a rejected `model.invoke` propagates
out of `classifyIntent`.  Once a reply text is in hand the code runs
`JSON.parse(response.text)` and returns `parsed.intent as Intent` inside a
`try` whose `catch` returns `"unsupported"`.  The oracle input is the outcome
of that parse:

* `fail` — the text is not strict JSON (`JSON.parse` throws, caught);
* `null` — the text parses to `null` (reading `.intent` then throws, caught);
* `obj` — an object (`.intent` is its `intent` property or `undefined`);
* `prim` — any other value: number, string, boolean or array, whose `.intent`
  is `undefined` without throwing. -/

inductive JsParsed where
  | fail
  | null
  | obj (fields : JObj)
  | prim (v : JVal)
deriving DecidableEq, Repr

/-- What `classifyIntent` hands back: the `intent` property's value — the
code casts it to `Intent` without checking it — or JavaScript `undefined`. -/
inductive ClassifyOut where
  | intentVal (v : JVal)
  | jsUndefined
deriving DecidableEq, Repr

/-- The `try { parsed = JSON.parse(...); return parsed.intent } catch { return "unsupported" }`
body, given the parse outcome. -/
def classifyParsed : JsParsed → ClassifyOut
  | .fail => .intentVal (.vstr "unsupported")
  | .null => .intentVal (.vstr "unsupported")
  | .obj fields =>
      match jLookup fields "intent" with
      | some v => .intentVal v
      | none => .jsUndefined
  | .prim _ => .jsUndefined

/-- `classifyIntent`: a rejected `model.invoke` (the `resp = .error` case) is
not caught and propagates to the caller. -/
def classifyIntent (resp : Except Unit JsParsed) : Except Unit ClassifyOut :=
  match resp with
  | .error e => .error e
  | .ok p => .ok (classifyParsed p)

/-- The intent literals the classifier's prompt enumerates
(`types/intents.ts` as documented, and the prompt's example outputs). -/
def validIntents : List String :=
  ["arithmetic", "flights", "hotel", "restaurant", "selfie", "activities",
   "nature", "unsupported"]

/-! ## The orchestrator graph (`src/graph/index.ts`)

The `StateGraph` wiring is data: node names, the `START → router` edge, the
conditional edges out of `router` computed by `routeByIntent`, and one edge
from every domain node to `END`. -/

inductive Intent where
  | arithmetic
  | flights
  | hotel
  | restaurant
  | activities
  | nature
  | selfie
  | unsupported
deriving DecidableEq, Repr

/-- The nodes registered by `graph/index.ts` (`addNode` calls, in order). -/
def graphNodes : List String :=
  ["router", "arithmeticAgent", "flightAgent", "hotelAgent",
   "restaurantAgent", "selfieAgent", "activityAgent", "natureAgent",
   "unsupportedNode"]

/-- The unconditional edges of `graph/index.ts` (`addEdge` calls): `START`
into the router, every domain node into `END`. -/
def graphEdges : List (String × String) :=
  [("START", "router"),
   ("arithmeticAgent", "END"), ("flightAgent", "END"),
   ("hotelAgent", "END"), ("restaurantAgent", "END"),
   ("selfieAgent", "END"), ("activityAgent", "END"),
   ("natureAgent", "END"), ("unsupportedNode", "END")]

/-- Modelled from the spec: `graph/nodes/supervisor/router.ts` — the
`routeByIntent` conditional-edge function that `graph/index.ts` imports — is
not among the repository files available here (only its caller
`graph/index.ts`, the superseded `graph/nodes/router.ts` and the repository
documentation are).  Per the spec's state list, the router fans out each
classified intent to that intent's own domain node (the node names are the
ones `graph/index.ts` registers) and `unsupported` to the fixed responder;
`state.intent` starts as `null`, hence the `Option`. -/
def routeByIntent : Option Intent → String
  | some .arithmetic => "arithmeticAgent"
  | some .flights => "flightAgent"
  | some .hotel => "hotelAgent"
  | some .restaurant => "restaurantAgent"
  | some .activities => "activityAgent"
  | some .nature => "natureAgent"
  | some .selfie => "selfieAgent"
  | some .unsupported => "unsupportedNode"
  | none => "unsupportedNode"

/-- The superseded router of `graph/nodes/router.ts` (still in the tree; the
compiled graph no longer imports it): only `arithmetic` and `flights` have
cases, everything else falls to the default branch. -/
def routeByIntentLegacy : Option Intent → String
  | some .arithmetic => "arithmeticAgent"
  | some .flights => "flightAgent"
  | _ => "unsupportedNode"

/-! ## The Amadeus token cache (`src/utils/amadeus/tokenManager.ts`)

Module state is the pair of `cachedToken` and `tokenExpiresAt`; a call reads
`Date.now()` once for the cache test and once after the token exchange, so
the two instants are separate inputs.  The result records the token (or the
propagated exchange failure), the updated module state, and how many network
exchanges the call performed. -/

structure TokenState where
  cachedToken : Option String := none
  tokenExpiresAt : Int := 0
deriving DecidableEq, Repr

/-- The fields of a successful `AmadeusTokenResponse` the cache reads. -/
structure TokenFetch where
  access_token : String
  expires_in : Int
deriving DecidableEq, Repr

def BUFFER_MS : Int := 5 * 60 * 1000

/-- `if (cachedToken && Date.now() < tokenExpiresAt)`: JavaScript truthiness,
so the empty string fails the test exactly like `null`. -/
def tokenCacheHit (st : TokenState) (now : Int) : Bool :=
  ¬ jsFalsyStr st.cachedToken ∧ now < st.tokenExpiresAt

/-- `getAmadeusToken`: return the cached token on a hit; otherwise perform
the exchange (its failure propagates), cache the token with expiry
`Date.now() + expires_in*1000 − BUFFER_MS` taken after the exchange, and
return it. -/
def getAmadeusToken (st : TokenState) (now fetchedAt : Int)
    (fetch : Except Unit TokenFetch) :
    Except Unit String × TokenState × Nat :=
  if tokenCacheHit st now then (.ok (st.cachedToken.getD ""), st, 0)
  else
    match fetch with
    | .error e => (.error e, st, 1)
    | .ok r =>
        (.ok r.access_token,
         { cachedToken := some r.access_token,
           tokenExpiresAt := fetchedAt + r.expires_in * 1000 - BUFFER_MS },
         1)

/-! ## Flight and arithmetic nodes

Both run a `createReactAgent` tool loop and post-process its transcript.
The loop itself is the oracle: on success it hands back the messages it
appended this turn (`result.messages` is the input followed by the new ones,
so `result.messages.slice(inputMessageCount)` is exactly that suffix); on
failure the promise rejects. -/

/-- `getMissingFields` of the flight node: the required trip fields, tested
with JavaScript truthiness. -/
def getMissingFields (trip : Trip) : List String :=
  (if jsFalsyStr trip.origin then ["origin city/airport"] else []) ++
  (if jsFalsyStr trip.destination then ["destination city/airport"] else []) ++
  (if jsFalsyStr trip.departureDate then ["departure date"] else []) ++
  (if jsFalsyStr trip.returnDate then ["return date"] else [])

/-- `Array.from({length: n}, () => template(nanoid()))`. -/
def mkTemplates (n : Nat) (ids : Nat → String) (tmpl : String → JObj) :
    List JObj :=
  (List.range n).map (fun i => tmpl (ids i))

def flightApology : String := "Something went wrong. Please try again later."

namespace FlightV1

/-- External outcomes of one `flightNode` call (`flightNode.ts`, the variant
without `USE_FLIGHT_API`): the react-agent loop and the summarizer call. -/
structure Env where
  agentResult : Except Unit (List Msg)
  summary : Except Unit String

/-- The flight node: the whole body sits in one `try`, whose `catch` appends
the fixed apology to whatever messages were current and returns without
`data`. -/
def flightNode (st : AgentState) (env : Env) : Except Unit Update :=
  match env.agentResult with
  | .error _ => .ok { messages := st.messages ++ [Msg.ai flightApology] }
  | .ok newMsgs =>
      let resultMessages := st.messages ++ newMsgs
      if ¬ newMsgs.any Msg.isTool then .ok { messages := resultMessages }
      else
        match extractLastToolJson resultMessages with
        | .error _ => .ok { messages := resultMessages ++ [Msg.ai flightApology] }
        | .ok (.arr (f :: rest)) =>
            match env.summary with
            | .error _ =>
                .ok { messages := resultMessages ++ [Msg.ai flightApology] }
            | .ok s =>
                .ok { messages := resultMessages ++ [Msg.ai s],
                      data := some (.flight s (f :: rest)) }
        | .ok _ => .ok { messages := resultMessages ++ [Msg.ai flightApology] }

end FlightV1

/-- External outcome of one `arithmeticNode` call: the react-agent loop. -/
structure ArithEnv where
  agentResult : Except Unit (List Msg)

/-- `arithmeticNode` (`graph/nodes/arithmetic/arithmeticNode.ts`): the body
has no `try`/`catch`, so a rejected agent invocation or an unparseable tool
payload propagates to the orchestrator. -/
def arithmeticNode (st : AgentState) (env : ArithEnv) : Except Unit Update :=
  match env.agentResult with
  | .error e => .error e
  | .ok newMsgs =>
      let resultMessages := st.messages ++ newMsgs
      if ¬ newMsgs.any Msg.isTool then .ok { messages := resultMessages }
      else
        match extractLastToolJson resultMessages with
        | .error e => .error e
        | .ok p =>
            .ok { messages := resultMessages, data := some (.arithmetic p) }

namespace FlightV2

/-- `const useFlightApi = process.env.USE_FLIGHT_API === "false";`
(the `USE_FLIGHT_API` variant of `flightNode.ts`). -/
def useFlightApi (envVar : Option String) : Bool := envVar == some "false"

/-- External outcomes of one call of the `USE_FLIGHT_API` flight node. -/
structure Env where
  agentResult : Except Unit (List Msg)
  clarify : Except Unit String
  genReply : GenReply
  summary : Except Unit String
  templateIds : Nat → String

/-- `createFlightTemplate()`: identity field populated, unknowns null. -/
def createFlightTemplate (id : String) : JObj :=
  [("id", .vstr id), ("price", .vnull), ("currency", .vnull),
   ("legs", .vnull), ("destinationAirport", .vnull)]

def errFallbackMsg : String := "Something went wrong."

def jvalAsString : JVal → String
  | .vnull => "null"
  | .vbool b => toString b
  | .vnum n => toString n
  | .vstr s => s

/-- `flightData.message ?? "Something went wrong."`: nullish coalescing, a
non-string non-null value passes through (rendered here as its string
form for the message slot). -/
def errMsgOf (o : JObj) : String :=
  match jLookup o "message" with
  | some .vnull => errFallbackMsg
  | some v => jvalAsString v
  | none => errFallbackMsg

/-- `flightNodeWithApi`: like the `FlightV1` node, plus a tool-returned
error-object branch (`flightData && !Array.isArray(flightData) && flightData.error === true`)
that produces `data: {type: "error"}`, and a summarizer whose failure is
non-fatal (fixed fallback sentence instead of an apology). -/
def flightNodeWithApi (st : AgentState) (env : Env) : Except Unit Update :=
  match env.agentResult with
  | .error _ => .ok { messages := st.messages ++ [Msg.ai flightApology] }
  | .ok newMsgs =>
      let resultMessages := st.messages ++ newMsgs
      if ¬ newMsgs.any Msg.isTool then .ok { messages := resultMessages }
      else
        match extractLastToolJson resultMessages with
        | .error _ => .ok { messages := resultMessages ++ [Msg.ai flightApology] }
        | .ok (.obj o) =>
            if jLookup o "error" = some (.vbool true) then
              .ok { messages := resultMessages ++ [Msg.ai (errMsgOf o)],
                    data := some (.error (errMsgOf o)) }
            else .ok { messages := resultMessages ++ [Msg.ai flightApology] }
        | .ok (.arr (f :: rest)) =>
            let s :=
              match env.summary with
              | .error _ => "Here are the flight options I found."
              | .ok s => s
            .ok { messages := resultMessages ++ [Msg.ai s],
                  data := some (.flight s (f :: rest)) }
        | .ok _ => .ok { messages := resultMessages ++ [Msg.ai flightApology] }

def genApology : String :=
  "Something went wrong finding flights. Please try again later."

/-- `flightNodeWithGenerator`: ask for missing fields first (that LLM call is
outside any `try`, so its rejection propagates), else synthesize five
templates through the data generator; generator or summarizer failure is
caught into the apology. -/
def flightNodeWithGenerator (st : AgentState) (env : Env) :
    Except Unit Update :=
  if getMissingFields st.trip ≠ [] then
    match env.clarify with
    | .error e => .error e
    | .ok s => .ok { messages := st.messages ++ [Msg.ai s] }
  else
    match
      generator (.inr (mkTemplates 5 env.templateIds createFlightTemplate))
        env.genReply with
    | .error _ => .ok { messages := st.messages ++ [Msg.ai genApology] }
    | .ok flights =>
        match env.summary with
        | .error _ => .ok { messages := st.messages ++ [Msg.ai genApology] }
        | .ok s =>
            .ok { messages := st.messages ++ [Msg.ai s],
                  data := some (.flight s flights) }

/-- The dispatch of `flightNode`: the API path runs exactly when
`useFlightApi` holds, i.e. when `USE_FLIGHT_API` is the string `"false"`. -/
def flightNode (useFlightApiEnv : Option String) (st : AgentState)
    (env : Env) : Except Unit Update :=
  if useFlightApi useFlightApiEnv then flightNodeWithApi st env
  else flightNodeWithGenerator st env

end FlightV2

/-! ## The hotel node (`src/graph/nodes/hotel/hotelNode.ts`)

Besides the state update, the model returns a trace of the external
data-source calls the node made — which `searchNearbyPlaces` requests and
which generator invocations — since the claims speak about *which* source was
used, not only about the returned value. -/

/-- One `searchNearbyPlaces({type, latitude, longitude})` request. -/
structure PlacesCall where
  ptype : String
  latitude : ℚ
  longitude : ℚ
deriving DecidableEq, Repr

/-- One `generator(...)` invocation: how many templates, which description. -/
structure GenCall where
  templateCount : Nat
  description : String
deriving DecidableEq, Repr

structure CallTrace where
  placesCalls : List PlacesCall := []
  generatorCalls : List GenCall := []
deriving DecidableEq, Repr

namespace Hotel

/-- External outcomes of one `hotelNode` call. -/
structure Env where
  usePlacesApi : Bool
  generateSummaries : Bool
  clarify : Except Unit String
  airportLookup : String → Except Unit Coords
  places : PlacesCall → Except Unit (List JObj)
  genReply : GenReply
  summaryResp : Except Unit String
  templateIds : Nat → String

/-- `createHotelTemplate()`. -/
def createHotelTemplate (id : String) : JObj :=
  [("id", .vstr id), ("name", .vnull), ("location", .vnull),
   ("rating", .vnull), ("latitude", .vnull), ("longitude", .vnull),
   ("description", .vnull), ("website", .vnull), ("imageUrl", .vstr "")]

def hotelDescription : String := "hotel recommendations near the trip destination"

def hotelApology : String :=
  "Something went wrong finding hotels. Please try again later."

/-- `getDestinationCoords`: prefer `trip.destinationCoords`; else resolve the
destination as an IATA airport code (`validateAirportCode` throws on no
match, caught into `null`).  `trip.hotelCoords` is never consulted. -/
def getDestinationCoords (trip : Trip) (env : Env) : Option Coords :=
  match trip.destinationCoords with
  | some c => some c
  | none =>
      if jsFalsyStr trip.destination then none
      else
        match env.airportLookup (trip.destination.getD "") with
        | .ok a => some a
        | .error _ => none

/-- The data-source step of the `try` block: places search when the flag is
on and destination coordinates resolved, otherwise the generator (10
templates after a failed coordinate resolution, 5 with the flag off). -/
def fetchHotels (trip : Trip) (env : Env) :
    Except Unit (List JObj) × CallTrace :=
  if env.usePlacesApi then
    match getDestinationCoords trip env with
    | none =>
        (generator (.inr (mkTemplates 10 env.templateIds createHotelTemplate))
           env.genReply,
         { generatorCalls := [{ templateCount := 10,
                                description := hotelDescription }] })
    | some c =>
        let call : PlacesCall :=
          { ptype := "hotel", latitude := c.latitude, longitude := c.longitude }
        (env.places call, { placesCalls := [call] })
  else
    (generator (.inr (mkTemplates 5 env.templateIds createHotelTemplate))
       env.genReply,
     { generatorCalls := [{ templateCount := 5,
                            description := hotelDescription }] })

/-- `hotelNode`: the destination-clarification LLM call sits outside the
`try` (its rejection propagates); the data fetch and the optional summary sit
inside it, their failure caught into the apology update. -/
def hotelNode (st : AgentState) (env : Env) :
    Except Unit Update × CallTrace :=
  if jsFalsyStr st.trip.destination then
    match env.clarify with
    | .error e => (.error e, {})
    | .ok s => (.ok { messages := st.messages ++ [Msg.ai s] }, {})
  else
    match fetchHotels st.trip env with
    | (.error _, tr) =>
        (.ok { messages := st.messages ++ [Msg.ai hotelApology] }, tr)
    | (.ok hotels, tr) =>
        if env.generateSummaries then
          match env.summaryResp with
          | .error _ =>
              (.ok { messages := st.messages ++ [Msg.ai hotelApology] }, tr)
          | .ok s =>
              (.ok { messages := st.messages ++ [Msg.ai s],
                     data := some (.hotel s hotels) }, tr)
        else
          (.ok { messages :=
                   st.messages ++ [Msg.ai "Here are your hotel recommendations."],
                 data := some (.hotel "" hotels) }, tr)

end Hotel

/-! ## The tips pipeline (`src/graph/nodes/tips/tipsNode.ts`)

`generateTips` runs the Wikipedia-grounded path inside one `try`; every
"nothing found" outcome and every thrown stage falls back to
`generateTipsWithGenerator`, which is a plain data-generator call (and is
itself outside any `try`). -/

structure WikiSection where
  index : String
  line : String
deriving DecidableEq, Repr

inductive TipCategory where
  | transportation
  | safety
  | whenToVisit
deriving DecidableEq, Repr

structure ClassifiedSection where
  index : String
  line : String
  category : TipCategory
deriving DecidableEq, Repr

structure GroupedContent where
  transportation : List String := []
  safety : List String := []
  whenToVisit : List String := []
deriving DecidableEq, Repr

/-- `grouped[entry.category].push(entry.content)`. -/
def pushCat (g : GroupedContent) (c : TipCategory) (s : String) :
    GroupedContent :=
  match c with
  | .transportation => { g with transportation := g.transportation ++ [s] }
  | .safety => { g with safety := g.safety ++ [s] }
  | .whenToVisit => { g with whenToVisit := g.whenToVisit ++ [s] }

/-- Step 5: group the non-empty (after `trim`) section contents by category,
in order. -/
def groupContents : List (ClassifiedSection × String) → GroupedContent →
    GroupedContent
  | [], g => g
  | (sec, content) :: rest, g =>
      groupContents rest
        (if 0 < content.trim.length then pushCat g sec.category content else g)

def needsFullExtract (g : GroupedContent) : Bool :=
  g.transportation = [] ∨ g.safety = [] ∨ g.whenToVisit = []

/-- Step 6: when some bucket is empty, fetch the full extract once and use it
for every still-empty bucket (no-op when the extract is `null`). -/
def backfill (g : GroupedContent) (fullText : Option String) : GroupedContent :=
  if needsFullExtract g then
    match fullText with
    | none => g
    | some t =>
        { transportation := if g.transportation = [] then [t] else g.transportation,
          safety := if g.safety = [] then [t] else g.safety,
          whenToVisit := if g.whenToVisit = [] then [t] else g.whenToVisit }
  else g

/-- The record `analyzeTips` builds from the parsed model reply. -/
structure TipsRec where
  id : String
  transportTips : String
  safetyTips : String
  whenToVisitTips : String
deriving DecidableEq, Repr

def tipsToObj (t : TipsRec) : JObj :=
  [("id", .vstr t.id), ("transportTips", .vstr t.transportTips),
   ("safetyTips", .vstr t.safetyTips),
   ("whenToVisitTips", .vstr t.whenToVisitTips)]

/-- `createTipsTemplate()`. -/
def tipsTemplate (id : String) : JObj :=
  [("id", .vstr id), ("transportTips", .vnull),
   ("whenToVisitTips", .vnull), ("safetyTips", .vnull)]

/-- External outcomes of one `generateTips` call.  The `searchWikipedia.ts`
fetchers catch internally (`null`/`[]`/`""` on failure), so their oracles are
plain values; `classifySections` and `analyzeTips` can reject (their
`model.invoke`, and for `analyzeTips` also its JSON parse, throw). -/
structure TipsEnv where
  nanoId : String
  genReply : GenReply
  pageId : Option Nat
  sections : List WikiSection
  classified : Except Unit (List ClassifiedSection)
  content : String → String
  fullExtract : Option String
  analyze : GroupedContent → Except Unit TipsRec

/-- `generateTipsWithGenerator`: one null template through the generator. -/
def generateTipsWithGenerator (env : TipsEnv) : Except Unit (List JObj) :=
  generator (.inr [tipsTemplate env.nanoId]) env.genReply

/-- `generateTips`. -/
def generateTips (trip : Trip) (env : TipsEnv) : Except Unit (List JObj) :=
  if jsFalsyStr trip.city then generateTipsWithGenerator env
  else
    match env.pageId with
    | none => generateTipsWithGenerator env
    | some _ =>
        if env.sections = [] then generateTipsWithGenerator env
        else
          match env.classified with
          | .error _ => generateTipsWithGenerator env
          | .ok classified =>
              let sectionContents :=
                classified.map (fun s => (s, env.content s.index))
              let grouped := groupContents sectionContents {}
              match env.analyze (backfill grouped env.fullExtract) with
              | .error _ => generateTipsWithGenerator env
              | .ok tips => .ok [tipsToObj tips]

/-! ## Claim theorems -/

theorem originalAt_lt (da : List JObj) (i : Nat) (h : i < da.length) :
    originalAt da i = da.getD i [] := by
  unfold originalAt
  rw [List.getD_eq_getElem?_getD, List.get?_eq_getElem?]
  cases hg : da[i]? with
  | none => rw [List.getElem?_eq_none_iff] at hg; omega
  | some x => rfl

/-- C1, Generator field-preservation: whenever the Data Generator returns,
every output element agrees with its corresponding input template (the one at
the same index of the normalized input array) on every field that is non-null
in that template, whatever the model replied. -/
theorem generator_field_preservation
    (data : JObj ⊕ List JObj) (reply : GenReply) (out : List JObj)
    (i : Nat) (k : String) (v : JVal)
    (hout : generator data reply = .ok out)
    (hi : i < (normalizeData data).length)
    (hio : i < out.length)
    (hnd : (keys ((normalizeData data).getD i [])).Nodup)
    (hk : jLookup ((normalizeData data).getD i []) k = some v)
    (hv : v ≠ JVal.vnull) :
    jLookup (out.getD i []) k = some v := by
  obtain ⟨parsed, hr, hlen⟩ := generator_length data reply out hout
  unfold generator at hout
  rw [hr] at hout
  by_cases hc : normalizeData data = [] ∧ parsed ≠ []
  · simp [hc] at hout
  · simp only [if_neg hc, Except.ok.injEq] at hout
    have hip : i < parsed.length := by omega
    rw [← hout, fillAll_getD _ 0 i parsed hip, Nat.zero_add,
      originalAt_lt _ _ hi]
    exact mergeTemplate_preserves _ _ k v hnd hk hv

def c1data : JObj ⊕ List JObj := .inl [("id", .vstr "x"), ("name", .vnull)]

def c1reply : GenReply := .single [("id", .vstr "MODEL"), ("name", .vstr "Filled")]

def c1out : List JObj := [[("id", .vstr "x"), ("name", .vstr "Filled")]]

/-- Witness for C1 at a concrete call: the model overwrote the non-null `id`,
the merge restores it. -/
theorem generator_field_preservation_witness :
    generator c1data c1reply = .ok c1out ∧
    jLookup (c1out.getD 0 []) "id" = some (.vstr "x") :=
  ⟨by decide,
   generator_field_preservation c1data c1reply c1out 0 "id" (.vstr "x")
     (by decide) (by decide) (by decide) (by decide) (by decide) (by decide)⟩

def c8tmpl : JObj := [("id", .vstr "t1"), ("name", .vnull)]

def c8reply : GenReply := .many [[("name", .vstr "A")], [("name", .vstr "B")]]

def c8out : List JObj :=
  [[("name", .vstr "A"), ("id", .vstr "t1")],
   [("name", .vstr "B"), ("id", .vstr "t1")]]

/-- C8 counterexample: a single-object input normalizes to an array of length
one, yet when the model replies with a two-element array the generator
returns both elements — the output length follows the model's reply, not the
input (`parsed.map(...)` maps over the reply). -/
theorem generator_shape_counterexample :
    generator (.inl c8tmpl) c8reply = .ok c8out ∧
    (normalizeData (.inl c8tmpl)).length = 1 ∧ c8out.length = 2 := by
  refine ⟨by decide, by decide, by decide⟩

/-- C8 amended: the returned array's length equals the length of the model's
parsed (array-normalized) reply, which need not equal the normalized input
length. -/
theorem generator_shape_amended (data : JObj ⊕ List JObj) (reply : GenReply)
    (out : List JObj) (h : generator data reply = .ok out) :
    ∃ parsed, replyItems reply = some parsed ∧ out.length = parsed.length :=
  generator_length data reply out h

/-- Witness for the amended C8 at a concrete call. -/
theorem generator_shape_amended_witness :
    generator (.inr [c8tmpl, c8tmpl]) (.single [("name", .vstr "A")]) =
      .ok [[("name", .vstr "A"), ("id", .vstr "t1")]] ∧
    (∃ parsed, replyItems (GenReply.single [("name", .vstr "A")]) = some parsed ∧
      ([[("name", .vstr "A"), ("id", .vstr "t1")]] : List JObj).length =
        parsed.length) :=
  ⟨by decide,
   generator_shape_amended (.inr [c8tmpl, c8tmpl])
     (.single [("name", .vstr "A")])
     [[("name", .vstr "A"), ("id", .vstr "t1")]] (by decide)⟩

theorem generateTipsWithGenerator_ok (env : TipsEnv)
    (h : env.genReply ≠ .unparseable) :
    ∃ l parsed, generateTipsWithGenerator env = .ok l ∧
      replyItems env.genReply = some parsed ∧ l.length = parsed.length := by
  cases hr : env.genReply with
  | unparseable => exact absurd hr h
  | single o =>
      refine ⟨fillAll [tipsTemplate env.nanoId] 0 [o], [o], ?_, ?_, ?_⟩
      · simp [generateTipsWithGenerator, generator, hr, replyItems,
          normalizeData]
      · simp [hr, replyItems]
      · simp [fillAll_length]
  | many os =>
      refine ⟨fillAll [tipsTemplate env.nanoId] 0 os, os, ?_, ?_, ?_⟩
      · simp [generateTipsWithGenerator, generator, hr, replyItems,
          normalizeData]
      · simp [hr, replyItems]
      · simp [fillAll_length]

theorem generateTips_cases (trip : Trip) (env : TipsEnv) :
    generateTips trip env = generateTipsWithGenerator env ∨
      ∃ t, generateTips trip env = .ok [tipsToObj t] := by
  by_cases h1 : jsFalsyStr trip.city
  · left; simp [generateTips, h1]
  · cases h2 : env.pageId with
    | none => left; simp [generateTips, h1, h2]
    | some p =>
        by_cases h3 : env.sections = []
        · left; simp [generateTips, h1, h2, h3]
        · cases h4 : env.classified with
          | error e => left; simp [generateTips, h1, h2, h3, h4]
          | ok cls =>
              cases h5 : env.analyze
                  (backfill
                    (groupContents (cls.map (fun s => (s, env.content s.index)))
                      {})
                    env.fullExtract) with
              | error e => left; simp [generateTips, h1, h2, h3, h4, h5]
              | ok t =>
                  right
                  exact ⟨t, by simp [generateTips, h1, h2, h3, h4, h5]⟩

def c2trip : Trip := { city := some "Zzzqqx", destination := some "Zzzqqx" }

def c2env : TipsEnv :=
  { nanoId := "tip-1", genReply := .many [], pageId := none,
    sections := [], classified := .error (), content := fun _ => "",
    fullExtract := none, analyze := fun _ => .error () }

/-- C2 counterexample: a city with no encyclopedia match falls back to the
Data Generator, and when the fallback model's reply parses to the empty array
`generateTips` returns zero Tips records — not "exactly one well-formed Tips
record". -/
theorem generateTips_exactly_one_counterexample :
    generateTips c2trip c2env = .ok ([] : List JObj) := by decide

/-- C2 amended: for every trip and every outcome of the Wikipedia stages,
`generateTips` returns (rather than throws) provided the fallback
generator's model reply is parseable; the result is exactly one record when
the Wikipedia path completes, and otherwise the call is the plain generator
fallback, whose result has one record per element of the model's parsed
reply. -/
theorem generateTips_fallback_amended (trip : Trip) (env : TipsEnv)
    (h : env.genReply ≠ .unparseable) :
    ∃ l, generateTips trip env = .ok l ∧
      (l.length = 1 ∨
        (generateTips trip env = generateTipsWithGenerator env ∧
          ∃ parsed, replyItems env.genReply = some parsed ∧
            l.length = parsed.length)) := by
  obtain ⟨lg, parsed, hok, hrep, hlen⟩ := generateTipsWithGenerator_ok env h
  rcases generateTips_cases trip env with hfall | ⟨t, hone⟩
  · exact ⟨lg, by rw [hfall, hok], Or.inr ⟨hfall, parsed, hrep, hlen⟩⟩
  · exact ⟨[tipsToObj t], hone, Or.inl rfl⟩

/-- Witness for the amended C2 at a concrete call (the counterexample's
input: parseable empty reply, no encyclopedia match). -/
theorem generateTips_fallback_amended_witness :
    (TipsEnv.genReply c2env ≠ .unparseable) ∧
    (∃ l, generateTips c2trip c2env = .ok l ∧
      (l.length = 1 ∨
        (generateTips c2trip c2env = generateTipsWithGenerator c2env ∧
          ∃ parsed, replyItems (TipsEnv.genReply c2env) = some parsed ∧
            l.length = parsed.length))) :=
  ⟨by decide, generateTips_fallback_amended c2trip c2env (by decide)⟩

/-- C3 counterexample: a model reply that parses as `{"intent": "banana"}`
is returned as-is — `"banana"` is none of the recognized intent literals, yet
the classification is not `"unsupported"`: the code casts `parsed.intent`
without validating it. -/
theorem classifyIntent_unvalidated_counterexample :
    classifyIntent (.ok (.obj [("intent", .vstr "banana")])) =
      .ok (.intentVal (.vstr "banana")) ∧ "banana" ∉ validIntents :=
  ⟨by decide, by decide⟩

/-- C3 amended: once a reply text is in hand the classifier never throws —
an unparseable reply (or a `null` whose property read throws) fails soft to
`"unsupported"` — but a parsed object's `intent` field is returned without
validation (unrecognized literals pass through, a missing field yields
`undefined`), and a rejected LLM call itself propagates. -/
theorem classifyIntent_failsoft_amended (p : JsParsed) :
    (∃ out, classifyIntent (.ok p) = .ok out) ∧
    (p = .fail ∨ p = .null →
      classifyIntent (.ok p) = .ok (.intentVal (.vstr "unsupported"))) ∧
    (∀ fields v, p = .obj fields → jLookup fields "intent" = some v →
      classifyIntent (.ok p) = .ok (.intentVal v)) ∧
    (∀ e, classifyIntent (.error e) = .error e) := by
  refine ⟨⟨classifyParsed p, rfl⟩, ?_, ?_, fun e => rfl⟩
  · rintro (rfl | rfl) <;> rfl
  · rintro fields v rfl hv
    simp [classifyIntent, classifyParsed, hv]

/-- Witness for the amended C3: the fail-soft branch at a concrete
unparseable reply. -/
theorem classifyIntent_failsoft_amended_witness :
    classifyIntent (.ok .fail) = .ok (.intentVal (.vstr "unsupported")) :=
  (classifyIntent_failsoft_amended .fail).2.1 (Or.inl rfl)

/-- C4, Orchestrator dispatch (router modelled from the spec, the graph from
`graph/index.ts`): the conditional edge maps every intent to a registered
node, every such node has an edge straight to `END` (one router evaluation,
one domain node, then termination), distinct intents go to distinct nodes,
and exactly the `unsupported` intent reaches the fixed unsupported
responder. -/
theorem orchestrator_dispatch :
    (∀ i : Intent, routeByIntent (some i) ∈ graphNodes) ∧
    (∀ i : Intent, (routeByIntent (some i), "END") ∈ graphEdges) ∧
    (∀ i j : Intent,
      routeByIntent (some i) = routeByIntent (some j) → i = j) ∧
    (∀ i : Intent,
      (routeByIntent (some i) = "unsupportedNode" ↔ i = .unsupported)) ∧
    ("START", "router") ∈ graphEdges := by
  refine ⟨fun i => ?_, fun i => ?_, fun i j => ?_, fun i => ?_, by decide⟩
  · cases i <;> decide
  · cases i <;> decide
  · cases i <;> cases j <;> decide
  · cases i <;> decide

def c5cSt : AgentState := { messages := [Msg.human "flights from SFO to LAX"] }

def c5cMsgs : List Msg := [Msg.tool (.arr [[("id", .vstr "f9")]]), Msg.ai "ok"]

def c5cEnv : FlightV1.Env := { agentResult := .ok c5cMsgs, summary := .error () }

/-- C5 counterexample: a flight turn whose loop issued a tool call and whose
last tool payload is a non-empty array, but whose `summarizeFlights` call
rejects — the `catch` of `flightNode.ts` returns the apology with **no**
`data`, so "data is populated from that payload" does not hold as stated. -/
theorem tool_loop_data_counterexample :
    c5cMsgs.any Msg.isTool = true ∧
    extractLastToolJson (c5cSt.messages ++ c5cMsgs) =
      .ok (.arr [[("id", .vstr "f9")]]) ∧
    FlightV1.flightNode c5cSt c5cEnv =
      .ok { messages := c5cSt.messages ++ c5cMsgs ++ [Msg.ai flightApology],
            data := none } :=
  ⟨by decide, by decide, by decide⟩

/-- C5 amended, Tool-loop result discipline for the flight and arithmetic
nodes: when the agent loop appended no tool message this turn, the update
carries no `data`; when it did and the last tool message's payload is a
non-empty JSON array, the flight node populates `data` from that payload
provided its summarizer call returns — a summarizer failure is caught into
the apology update with no `data` — while the arithmetic node (which has no
summarizer) populates `data` from any parsed payload unconditionally. -/
theorem tool_loop_data_discipline (st : AgentState) (envF : FlightV1.Env)
    (envA : ArithEnv) (newMsgs : List Msg)
    (hF : envF.agentResult = .ok newMsgs)
    (hA : envA.agentResult = .ok newMsgs) :
    ((¬ newMsgs.any Msg.isTool) →
      FlightV1.flightNode st envF =
          .ok { messages := st.messages ++ newMsgs } ∧
        arithmeticNode st envA =
          .ok { messages := st.messages ++ newMsgs }) ∧
    (∀ f rest s, newMsgs.any Msg.isTool →
      extractLastToolJson (st.messages ++ newMsgs) = .ok (.arr (f :: rest)) →
      envF.summary = .ok s →
      FlightV1.flightNode st envF =
        .ok { messages := st.messages ++ newMsgs ++ [Msg.ai s],
              data := some (.flight s (f :: rest)) }) ∧
    (∀ f rest, newMsgs.any Msg.isTool →
      extractLastToolJson (st.messages ++ newMsgs) = .ok (.arr (f :: rest)) →
      envF.summary = .error () →
      FlightV1.flightNode st envF =
        .ok { messages := st.messages ++ newMsgs ++ [Msg.ai flightApology],
              data := none }) ∧
    (∀ p, newMsgs.any Msg.isTool →
      extractLastToolJson (st.messages ++ newMsgs) = .ok p →
      arithmeticNode st envA =
        .ok { messages := st.messages ++ newMsgs,
              data := some (.arithmetic p) }) := by
  refine ⟨fun h0 => ⟨?_, ?_⟩, fun f rest s h1 h2 h3 => ?_,
    fun f rest h1 h2 h3 => ?_, fun p h1 h2 => ?_⟩
  · simp [FlightV1.flightNode, hF, h0]
  · simp [arithmeticNode, hA, h0]
  · simp [FlightV1.flightNode, hF, h1, h2, h3]
  · simp [FlightV1.flightNode, hF, h1, h2, h3]
  · simp [arithmeticNode, hA, h1, h2]

def c5payload : ToolPayload := .arr [[("id", .vstr "f1"), ("price", .vnum 420)]]

def c5msgs : List Msg := [Msg.ai "", Msg.tool c5payload, Msg.ai "done"]

def c5st : AgentState := { messages := [Msg.human "flights to LAX"] }

def c5envF : FlightV1.Env := { agentResult := .ok c5msgs, summary := .ok "sum" }

def c5envA : ArithEnv := { agentResult := .ok c5msgs }

/-- Witness for C5 at a concrete transcript with one tool message carrying a
one-element array. -/
theorem tool_loop_data_discipline_witness :
    FlightV1.flightNode c5st c5envF =
      .ok { messages := c5st.messages ++ c5msgs ++ [Msg.ai "sum"],
            data := some (.flight "sum"
              [[("id", .vstr "f1"), ("price", .vnum 420)]]) } ∧
    arithmeticNode c5st c5envA =
      .ok { messages := c5st.messages ++ c5msgs,
            data := some (.arithmetic c5payload) } :=
  ⟨(tool_loop_data_discipline c5st c5envF c5envA c5msgs rfl rfl).2.1
      [("id", .vstr "f1"), ("price", .vnum 420)] [] "sum"
      (by decide) (by decide) (by decide),
   (tool_loop_data_discipline c5st c5envF c5envA c5msgs rfl rfl).2.2.2
      c5payload (by decide) (by decide)⟩

def c6fetch1 : TokenFetch := { access_token := "", expires_in := 3600 }

def c6fetch2 : TokenFetch := { access_token := "tok2", expires_in := 3600 }

def c6state : TokenState := { cachedToken := some "", tokenExpiresAt := 3300000 }

/-- C6 counterexample: the cache test is JavaScript truthiness
(`if (cachedToken && ...)`), so after a first exchange that returned the
empty-string token, a second call made well before the cached expiry
(now = 1000 < 3300000) performs a second network exchange and returns a
different token — not "the identical token string with no second network
exchange". -/
theorem token_cache_counterexample :
    getAmadeusToken {} 0 0 (.ok c6fetch1) = (.ok "", c6state, 1) ∧
    getAmadeusToken c6state 1000 1000 (.ok c6fetch2) =
      (.ok "tok2",
       { cachedToken := some "tok2", tokenExpiresAt := 3600000 + 1000 - 300000 },
       1) :=
  ⟨by decide, by decide⟩

/-- C6 amended: a second call made while the current time is before the
cached expiry returns the identical token with no network exchange provided
the cached token is a non-empty string (JavaScript truthiness re-fetches on
an empty one); any cache miss with a successful exchange performs exactly one
exchange and sets the expiry to the post-fetch time plus
`expires_in * 1000` minus the five-minute buffer. -/
theorem token_cache_amended (st : TokenState) (now fetchedAt : Int)
    (f : Except Unit TokenFetch) (t : String) (r : TokenFetch) :
    (st.cachedToken = some t → t ≠ "" → now < st.tokenExpiresAt →
      getAmadeusToken st now fetchedAt f = (.ok t, st, 0)) ∧
    (tokenCacheHit st now = false → f = .ok r →
      getAmadeusToken st now fetchedAt f =
        (.ok r.access_token,
         { cachedToken := some r.access_token,
           tokenExpiresAt := fetchedAt + r.expires_in * 1000 - BUFFER_MS },
         1)) := by
  constructor
  · intro h1 h2 h3
    have hhit : tokenCacheHit st now = true := by
      simp [tokenCacheHit, h1, jsFalsyStr, h2, h3]
    simp [getAmadeusToken, hhit, h1]
  · intro h1 h2
    simp [getAmadeusToken, h1, h2]

/-- Witness for the amended C6: a cache hit on a non-empty token, and a
refresh past expiry. -/
theorem token_cache_amended_witness :
    getAmadeusToken { cachedToken := some "tokA", tokenExpiresAt := 900 } 100
        100 (.ok c6fetch2) =
      (.ok "tokA", { cachedToken := some "tokA", tokenExpiresAt := 900 }, 0) ∧
    getAmadeusToken { cachedToken := some "tokA", tokenExpiresAt := 900 } 901
        905 (.ok c6fetch2) =
      (.ok "tok2",
       { cachedToken := some "tok2",
         tokenExpiresAt := 905 + 3600 * 1000 - BUFFER_MS }, 1) :=
  ⟨(token_cache_amended { cachedToken := some "tokA", tokenExpiresAt := 900 }
      100 100 (.ok c6fetch2) "tokA" c6fetch2).1 rfl (by decide) (by decide),
   (token_cache_amended { cachedToken := some "tokA", tokenExpiresAt := 900 }
      901 905 (.ok c6fetch2) "tokA" c6fetch2).2 (by decide) rfl⟩

/-- C7 counterexample: the arithmetic node has no `try`/`catch`, so when its
agent invocation rejects (an LLM failure), the exception propagates out of
the domain node — it does not return an apology update. -/
theorem arithmeticNode_propagates_counterexample :
    arithmeticNode { messages := [Msg.human "2+2"] }
      { agentResult := .error () } = .error () := by decide

/-- C7 amended: the hotel node (like the other places nodes and the flight
node) self-catches every failure of its data-fetch/summary phase — with a
destination present it always returns a well-formed update — but the
arithmetic node propagates internal errors, so not every domain node
self-catches. -/
theorem domain_node_selfcatch_amended (st : AgentState) (env : Hotel.Env)
    (hdest : jsFalsyStr st.trip.destination = false) :
    ∃ u, (Hotel.hotelNode st env).1 = .ok u := by
  unfold Hotel.hotelNode
  rw [hdest]
  cases hfetch : Hotel.fetchHotels st.trip env with
  | mk r tr =>
      cases r with
      | error e => exact ⟨_, rfl⟩
      | ok hotels =>
          by_cases hs : env.generateSummaries
          · cases hsum : env.summaryResp with
            | error e => simp [hs, hsum]
            | ok s => simp [hs, hsum]
          · simp [hs]

def c7st : AgentState :=
  { messages := [Msg.human "hotels please"],
    trip := { destination := some "Paris" } }

def c7env : Hotel.Env :=
  { usePlacesApi := false, generateSummaries := true,
    clarify := .error (), airportLookup := fun _ => .error (),
    places := fun _ => .error (), genReply := .unparseable,
    summaryResp := .error (), templateIds := fun _ => "id" }

/-- Witness for the amended C7: with a destination present the hotel node
returns a well-formed update even when every external call fails. -/
theorem domain_node_selfcatch_amended_witness :
    jsFalsyStr c7st.trip.destination = false ∧
    (∃ u, (Hotel.hotelNode c7st c7env).1 = .ok u) :=
  ⟨by decide, domain_node_selfcatch_amended c7st c7env (by decide)⟩

def tokyoLat : ℚ := Rat.divInt 356892 10000

def tokyoLng : ℚ := Rat.divInt 1396922 10000

def c9st : AgentState :=
  { messages := [Msg.human "hotels in Tokyo"],
    trip := { destination := some "Tokyo",
              hotelCoords := some { latitude := tokyoLat,
                                    longitude := tokyoLng } } }

/-- The airport database holds only IATA codes (three letters), so
`validateAirportCode("Tokyo")` finds no match and throws; the oracle mirrors
that. -/
def c9env : Hotel.Env :=
  { usePlacesApi := true, generateSummaries := false,
    clarify := .ok "what destination?", airportLookup := fun _ => .error (),
    places := fun _ => .ok [], genReply := .many [],
    summaryResp := .ok "", templateIds := fun i => toString i }

/-- C9 counterexample: for the trip `{destination: "Tokyo", hotelCoords:
{lat: 35.6892, lng: 139.6922}}` with external search enabled, the hotel node
never reads `hotelCoords` — it resolves destination-level coordinates, and
since `destinationCoords` is unset and `"Tokyo"` is no IATA code, it invokes
the Data Generator with ten templates and never calls the places adapter. -/
theorem hotel_external_search_counterexample :
    (Hotel.hotelNode c9st c9env).2 =
      { placesCalls := [],
        generatorCalls := [{ templateCount := 10,
                             description := Hotel.hotelDescription }] } := by
  decide

/-- C9 amended: with external search enabled, the hotel node calls the
nearby-places adapter with type `"hotel"` exactly when destination-level
coordinates are present (`trip.destinationCoords`, which `hotelCoords` never
feeds), with exactly those coordinates and no generator call, and reshapes
the adapter's zero-or-more results into the hotel `data`; with
`destinationCoords` absent and the destination not resolvable as an IATA
code, it falls back to the Data Generator with ten templates. -/
theorem hotel_external_search_amended (st : AgentState) (env : Hotel.Env)
    (c : Coords)
    (hapi : env.usePlacesApi = true)
    (hdest : jsFalsyStr st.trip.destination = false)
    (hcoords : st.trip.destinationCoords = some c) :
    (Hotel.hotelNode st env).2 =
      { placesCalls := [{ ptype := "hotel", latitude := c.latitude,
                          longitude := c.longitude }],
        generatorCalls := [] } ∧
    (∀ hotels,
      env.places { ptype := "hotel", latitude := c.latitude,
                   longitude := c.longitude } = .ok hotels →
      env.generateSummaries = false →
      (Hotel.hotelNode st env).1 =
        .ok { messages :=
                st.messages ++ [Msg.ai "Here are your hotel recommendations."],
              data := some (.hotel "" hotels) }) := by
  have hget : Hotel.getDestinationCoords st.trip env = some c := by
    simp [Hotel.getDestinationCoords, hcoords]
  constructor
  · simp [Hotel.hotelNode, hdest, Hotel.fetchHotels, hapi, hget]
    cases henv : env.places ⟨"hotel", c.latitude, c.longitude⟩ with
    | error e => simp [henv]
    | ok hotels =>
        by_cases hs : env.generateSummaries
        · cases hsum : env.summaryResp with
          | error e => simp [henv, hs, hsum]
          | ok s => simp [henv, hs, hsum]
        · simp [henv, hs]
  · intro hotels hplaces hs
    simp [Hotel.hotelNode, hdest, Hotel.fetchHotels, hapi, hget, hplaces, hs]

def c9okSt : AgentState :=
  { messages := [],
    trip := { destination := some "Tokyo",
              destinationCoords := some { latitude := tokyoLat,
                                          longitude := tokyoLng } } }

def c9okEnv : Hotel.Env :=
  { usePlacesApi := true, generateSummaries := false,
    clarify := .ok "q", airportLookup := fun _ => .error (),
    places := fun _ => .ok [[("id", .vstr "h1"), ("name", .vstr "Hotel A")]],
    genReply := .unparseable, summaryResp := .ok "",
    templateIds := fun i => toString i }

/-- Witness for the amended C9: with `destinationCoords` present, the places
adapter is called with type `"hotel"` and exactly those coordinates, no
generator call is made, and its results populate the hotel data. -/
theorem hotel_external_search_amended_witness :
    (Hotel.hotelNode c9okSt c9okEnv).2 =
      { placesCalls := [{ ptype := "hotel", latitude := tokyoLat,
                          longitude := tokyoLng }],
        generatorCalls := [] } ∧
    (Hotel.hotelNode c9okSt c9okEnv).1 =
      .ok { messages :=
              List.nil ++ [Msg.ai "Here are your hotel recommendations."],
            data := some (.hotel ""
              [[("id", .vstr "h1"), ("name", .vstr "Hotel A")]]) } :=
  ⟨(hotel_external_search_amended c9okSt c9okEnv
      { latitude := tokyoLat, longitude := tokyoLng } rfl (by decide) rfl).1,
   (hotel_external_search_amended c9okSt c9okEnv
      { latitude := tokyoLat, longitude := tokyoLng } rfl (by decide) rfl).2
      [[("id", .vstr "h1"), ("name", .vstr "Hotel A")]] rfl rfl⟩

/-- C10, Flight data-source selection: the flight node takes the Amadeus
tool-calling API path exactly when the environment variable `USE_FLIGHT_API`
is the string `"false"` (the guard is `process.env.USE_FLIGHT_API === "false"`);
every other value, `"true"` and unset included, takes the generator path. -/
theorem flight_api_dispatch (v : Option String) (st : AgentState)
    (env : FlightV2.Env) :
    (FlightV2.useFlightApi v = true ↔ v = some "false") ∧
    (v = some "false" →
      FlightV2.flightNode v st env = FlightV2.flightNodeWithApi st env) ∧
    (v ≠ some "false" →
      FlightV2.flightNode v st env = FlightV2.flightNodeWithGenerator st env) := by
  refine ⟨by simp [FlightV2.useFlightApi], fun h => ?_, fun h => ?_⟩
  · simp [FlightV2.flightNode, FlightV2.useFlightApi, h]
  · simp [FlightV2.flightNode, FlightV2.useFlightApi, h]

def c10st : AgentState := { messages := [Msg.human "flights to LAX"] }

def c10env : FlightV2.Env :=
  { agentResult := .ok [], clarify := .ok "where from?",
    genReply := .unparseable, summary := .ok "s",
    templateIds := fun i => toString i }

/-- Witness for C10: `USE_FLIGHT_API="true"` (and any value other than
`"false"`) takes the generator path at a concrete state. -/
theorem flight_api_dispatch_witness :
    (FlightV2.useFlightApi (some "true") = true ↔ some "true" = some "false") ∧
    FlightV2.flightNode (some "true") c10st c10env =
      FlightV2.flightNodeWithGenerator c10st c10env ∧
    FlightV2.flightNode (some "false") c10st c10env =
      FlightV2.flightNodeWithApi c10st c10env :=
  ⟨(flight_api_dispatch (some "true") c10st c10env).1,
   (flight_api_dispatch (some "true") c10st c10env).2.2 (by decide),
   (flight_api_dispatch (some "false") c10st c10env).2.1 rfl⟩

end Allorai
